import Mathlib

/-!
Verification of the Content Authenticity Analysis Engine
(`app/fake_news_detector.py`, `app/deepfake_detector.py`, `app/utils.py`).

Shallow embedding conventions:
- Python floats are modelled by exact rationals (`ℚ`); every constant the
  analysed code compares or adds (0.2, 0.3, 0.5, 0.6, 0.7) is exactly
  representable in binary64, and `0.2 + 0.3` is exactly `0.5` in binary64,
  so the rational model agrees with the float semantics at every comparison
  the code performs.
- Python exceptions are modelled by `Except String`; `try/except` blocks
  become a `match` on the embedded result.
- The injected classification capabilities (Hugging Face pipelines), frame
  decoding and audio decoding are modelled as explicit parameters: a
  function or value of `Except`/`Option` type standing for the outcome of
  the external call.
- `str.strip` / `str.upper` / `str.lower` / slicing are re-implemented on
  the character list underlying `String` (ASCII case mapping, which covers
  every label and MIME string the code manipulates).
- Python's `int()` float truncation is `pyInt` (truncation toward zero);
  the `"%.1f"` float formatting used only inside human-readable `details`
  strings is modelled by `fmt1` (truncation to one decimal), a harmless
  approximation of round-half-even that no theorem below depends on.
-/

/-- Python `str.strip()`: drop whitespace from both ends. -/
def pyStrip (s : String) : String :=
  ⟨((s.data.dropWhile Char.isWhitespace).reverse.dropWhile Char.isWhitespace).reverse⟩

/-- Python `str.upper()` (ASCII range, which covers all classifier labels). -/
def pyUpper (s : String) : String :=
  ⟨s.data.map Char.toUpper⟩

/-- Python `str.lower()` (ASCII range, which covers all MIME strings). -/
def pyLower (s : String) : String :=
  ⟨s.data.map Char.toLower⟩

/-- Python slicing `s[:n]`. -/
def pyTake (s : String) (n : ℕ) : String :=
  ⟨s.data.take n⟩

/-- Python `str.startswith`. -/
def pyStartsWith (s p : String) : Bool :=
  p.data.isPrefixOf s.data

/-- Python `int()` applied to a float: truncation toward zero. -/
def pyInt (q : ℚ) : ℤ :=
  if 0 ≤ q then ⌊q⌋ else ⌈q⌉

/-- Python `int(q * 100)`, the percentage formatting used in details strings. -/
def pctInt (q : ℚ) : ℤ :=
  pyInt (q * 100)

/-- Python `f"{q:.1f}"` on the nonnegative durations the code formats
(truncation to one decimal place stands in for round-half-even). -/
def fmt1 (q : ℚ) : String :=
  let t := pyInt (q * 10)
  let ip := t / 10
  let fp := (t % 10).natAbs
  s!"{ip}.{fp}"

/-- `app/utils.py`, `get_media_type_from_mime`. -/
def get_media_type_from_mime (mime_type : String) : String :=
  let m := pyLower mime_type
  if pyStartsWith m "image/" then "image"
  else if pyStartsWith m "video/" then "video"
  else if pyStartsWith m "audio/" then "audio"
  else if m ∈ (["application/pdf", "application/msword"] : List String) then "document"
  else "unknown"

/-- One raw `{label, score}` prediction returned by a classification
capability (`transformers` pipeline output entry). -/
structure Prediction where
  label : String
  score : ℚ
  deriving DecidableEq

/-- The dict returned by `FakeNewsDetector.analyze_text` and its helpers:
keys `is_fake`, `confidence`, `label`, `details` and (on the model path)
`all_predictions`; records that omit `all_predictions` carry `[]`. -/
structure TextRecord where
  is_fake : Bool
  confidence : ℚ
  label : String
  details : String
  allPreds : List Prediction := []
  deriving DecidableEq

/-- `FakeNewsDetector._generate_details`. -/
def generate_details (label : String) (confidence : ℚ) (predictions : List Prediction) : String :=
  let confLine : String :=
    if confidence ≥ 0.9 then "• Confiance très élevée dans l'analyse"
    else if confidence ≥ 0.7 then "• Confiance élevée dans l'analyse"
    else if confidence ≥ 0.5 then "• Confiance modérée dans l'analyse"
    else "• Confiance faible - résultats à prendre avec précaution"
  let adviceLines : List String :=
    if label ∈ (["FAKE", "LABEL_1", "1"] : List String) then
      ["• Vérifiez les sources citées",
       "• Recherchez des confirmations sur des sites fiables",
       "• Méfiez-vous des titres sensationnalistes"]
    else
      ["• Le contenu semble authentique mais restez vigilant",
       "• Vérifiez toujours le contexte et la date"]
  let altLines : List String :=
    match predictions with
    | _ :: alt :: _ =>
      let lab := alt.label
      let pct := pctInt alt.score
      [s!"• Score alternatif: {lab} ({pct}%)"]
    | _ => []
  String.intercalate "\n" (confLine :: adviceLines ++ altLines)

/-- `FakeNewsDetector._parse_predictions`. -/
def parse_predictions (predictions : List Prediction) : TextRecord :=
  match predictions with
  | [] =>
    { is_fake := false, confidence := 0, label := "unknown",
      details := "Aucune prédiction disponible" }
  | top :: _ =>
    let label := pyUpper top.label
    let score := top.score
    let is_fake0 : Bool := decide (label ∈ (["FAKE", "LABEL_1", "1", "UNRELIABLE"] : List String))
    let isRealLabel : Bool := decide (label ∈ (["REAL", "LABEL_0", "0", "RELIABLE"] : List String))
    let is_fake : Bool := if isRealLabel then false else is_fake0
    let confidence := score
    { is_fake := is_fake, confidence := confidence, label := label,
      details := generate_details label confidence predictions,
      allPreds := predictions }

/-- `FakeNewsDetector.analyze_text`.

State and capabilities are explicit parameters:
- `initialized` is `self._initialized` on entry;
- `loadR` is the outcome `_lazy_load_model` would have (it re-raises its
  failure, so a load failure surfaces as the `except` branch's record);
- `pipe` is the text-classification capability `self.pipeline(text, top_k=2)`
  (raising modelled as `.error`). -/
def analyze_text (initialized : Bool) (loadR : Except String Unit)
    (pipe : String → Except String (List Prediction)) (text : String) : TextRecord :=
  let initStep : Except String Unit := if initialized then .ok () else loadR
  let body : Except String TextRecord :=
    match initStep with
    | .error e => .error e
    | .ok _ =>
      if text = "" ∨ (pyStrip text).length < 10 then
        .ok { is_fake := false, confidence := 0, label := "insufficient_text",
              details := "Texte trop court pour une analyse fiable" }
      else
        match pipe (pyTake text 5000) with
        | .ok predictions => .ok (parse_predictions predictions)
        | .error e => .error e
  match body with
  | .ok r => r
  | .error e =>
    { is_fake := false, confidence := 0, label := "error",
      details := "Erreur d'analyse: " ++ e }

/-- The mutable state of a `FakeNewsDetector` instance that
`_lazy_load_model` reads and writes: the `_initialized` flag (the
`pipeline` handle is set exactly when loading succeeded, i.e. when
`initialized = true`). -/
structure DetectorState where
  initialized : Bool
  deriving DecidableEq

/-- The observable outcome of one `analyze_text` call on a live detector:
the state after the call, the returned record, and whether this call
entered `_lazy_load_model`'s loading branch (`attempted`). -/
structure StepOut where
  state : DetectorState
  record : TextRecord
  attempted : Bool
  deriving DecidableEq

/-- One `analyze_text` call as a state transition. `_lazy_load_model`
returns immediately when `_initialized` is set; otherwise it attempts the
load, sets `_initialized := True` on success and re-raises on failure
(leaving `_initialized` as `False`). -/
def analyze_text_step (s : DetectorState) (loadR : Except String Unit)
    (pipe : String → Except String (List Prediction)) (text : String) : StepOut :=
  if s.initialized then
    { state := s, record := analyze_text true loadR pipe text, attempted := false }
  else
    match loadR with
    | .ok _ =>
      { state := { initialized := true }, record := analyze_text false (.ok ()) pipe text,
        attempted := true }
    | .error e =>
      { state := s, record := analyze_text false (.error e) pipe text, attempted := true }

/-- The Python runtime errors the embedding distinguishes. -/
inductive PyError where
  | unboundLocal (name : String)
  deriving DecidableEq

/-- The constant tail appended to every summary by
`FakeNewsDetector.get_analysis_summary`. -/
def summary_footer : String :=
  "━━━━━━━━━━━━━━━━━━━━━\n⚠️ **Rappel Important :**\nCette analyse automatique n'est pas infaillible.\nVérifiez toujours :\n• Les sources primaires\n• Les sites de fact-checking\n• Le contexte de publication\n• La date et l'auteur"

/-- `FakeNewsDetector.get_analysis_summary`.

The `if is_fake` branch assigns the local `summary` and then augments it;
the `else` branch starts with `summary += ...`, which first reads the
still-unbound local `summary`, so CPython raises `UnboundLocalError`
before building any string — modelled as the `.error` result. -/
def get_analysis_summary (analysis : TextRecord) : Except PyError String :=
  let confidence := analysis.confidence
  let details := analysis.details
  let branch : Except PyError String :=
    if analysis.is_fake then
      let pct := pctInt confidence
      .ok ("🚨 **ALERTE FAKE NEWS POSSIBLE**\n\n" ++
           s!"📊 Probabilité : {pct}%\n\n" ++
           "Ce texte présente des caractéristiques typiques de désinformation.\n\n")
    else
      .error (PyError.unboundLocal "summary")
  match branch with
  | .error e => .error e
  | .ok s0 =>
    let s1 := if details ≠ "" then s0 ++ s!"**Détails :**\n{details}\n\n" else s0
    .ok (s1 ++ summary_footer)

/-- The per-image signals `DeepfakeDetector._analyze_image_basic` computes
with OpenCV before combining them: the image shape, the Laplacian variance
feeding `_estimate_jpeg_quality` (`none` when that computation raises, in
which case the method returns its default 75), and the Canny edge-pixel
fraction feeding `_analyze_edges` (`none` when it raises, in which case
0.0 is returned). -/
structure ImgData where
  width : ℕ
  height : ℕ
  laplacianVar : Option ℚ
  edgeSignal : Option ℚ
  deriving DecidableEq

/-- `DeepfakeDetector._estimate_jpeg_quality`:
`min(100, max(0, int(laplacian_var / 10)))`, default 75 on failure. -/
def estimate_jpeg_quality (img : ImgData) : ℤ :=
  match img.laplacianVar with
  | some v => min 100 (max 0 (pyInt (v / 10)))
  | none => 75

/-- `DeepfakeDetector._analyze_edges`: the edge-pixel fraction, 0.0 on
failure. -/
def analyze_edges (img : ImgData) : ℚ :=
  match img.edgeSignal with
  | some r => r
  | none => 0

/-- The dict returned by the heuristic image path (keys `is_fake`,
`confidence`, `label`, `details`). -/
structure BasicRecord where
  is_fake : Bool
  confidence : ℚ
  label : String
  details : String
  deriving DecidableEq

/-- The body of `DeepfakeDetector._analyze_image_basic` after the image
has been loaded successfully. -/
def analyze_image_basic_core (img : ImgData) : BasicRecord :=
  let jpeg_quality := estimate_jpeg_quality img
  let edge_score := analyze_edges img
  let suspicious_score : ℚ :=
    (if jpeg_quality < 70 then 0.2 else 0) + (if edge_score > 0.7 then 0.3 else 0)
  let is_fake : Bool := decide (suspicious_score > 0.3)
  let confidence : ℚ := min suspicious_score 0.6
  let w := img.width
  let h := img.height
  let detailLines : List String :=
    [s!"• Résolution: {w}x{h}", s!"• Qualité estimée: {jpeg_quality}%"]
    ++ (if jpeg_quality < 70 then ["• ⚠️ Qualité faible (possibles compressions multiples)"] else [])
    ++ (if edge_score > 0.7 then ["• ⚠️ Artefacts de bords détectés"] else [])
    ++ (if is_fake then [] else ["• Aucun artefact évident détecté"])
    ++ ["\n⚠️ Analyse limitée sans modèle ML"]
  { is_fake := is_fake, confidence := confidence,
    label := if is_fake then "suspicious" else "likely_real",
    details := String.intercalate "\n" detailLines }

/-- `DeepfakeDetector._analyze_image_basic`: `cv2.imread` returning `None`
raises `ValueError("Impossible de charger l'image")`, which the method
re-raises; otherwise the heuristic verdict is computed. -/
def analyze_image_basic (img : Option ImgData) : Except String BasicRecord :=
  match img with
  | none => .error "Impossible de charger l'image"
  | some d => .ok (analyze_image_basic_core d)

/-- The frame-sampling line of `DeepfakeDetector.analyze_video`:
`np.linspace(0, total_frames - 1, min(5, total_frames), dtype=int)`.
For `num ≥ 2` entries the float value `i * (n - 1) / (num - 1)` is exactly
representable in binary64 (an integer divided by 4, 3, 2 or 1), so the
integer cast is exactly natural-number division. -/
def frame_indices (n : ℕ) : List ℕ :=
  let num := min 5 n
  (List.range num).map (fun i => if num ≤ 1 then 0 else i * (n - 1) / (num - 1))

/-- The fields of one frame-level record `analyze_video` reads: `is_fake`
and `confidence` of the record `analyze_image` returned for that frame. -/
structure FrameRes where
  is_fake : Bool
  confidence : ℚ
  deriving DecidableEq

/-- The dict returned by `analyze_media` / `analyze_video` /
`analyze_audio` (keys `is_fake`, `confidence`, `media_type`, `details`). -/
structure MediaRecord where
  is_fake : Bool
  confidence : ℚ
  media_type : String
  details : String
  deriving DecidableEq

/-- The `details` list `analyze_video` assembles before joining. -/
def video_details (duration : ℚ) (total_frames : ℕ) (sampled : ℕ)
    (fake_count : ℕ) (avg : ℚ) (is_fake : Bool) : String :=
  let d := fmt1 duration
  let pct := pctInt avg
  let base : List String :=
    [s!"• Durée: {d}s ({total_frames} frames)",
     s!"• Frames analysées: {sampled}",
     s!"• Frames suspectes: {fake_count}/{sampled}",
     s!"• Confiance moyenne: {pct}%"]
  let verdict : List String :=
    if is_fake then ["• ⚠️ Manipulations détectées dans certaines frames"]
    else ["• Vidéo semble authentique"]
  String.intercalate "\n" (base ++ verdict)

/-- `DeepfakeDetector.analyze_video`.

`openOk` is `cap.isOpened()` (its failure raises `ValueError`, caught by
the method's own `except`, which returns the error record). `frames`
gives, per sampled frame index, `none` when `cap.read()` failed for that
index (the frame is then skipped) and otherwise the `is_fake`/`confidence`
of the record `analyze_image` produced for the decoded frame
(`analyze_image` catches its own failures, so it always yields a record). -/
def analyze_video (openOk : Bool) (total_frames : ℕ) (fps : ℚ)
    (frames : ℕ → Option FrameRes) : MediaRecord :=
  if openOk = false then
    { is_fake := false, confidence := 0, media_type := "video",
      details := "Erreur: Impossible d'ouvrir la vidéo" }
  else
    let duration : ℚ := if fps > 0 then (total_frames : ℚ) / fps else 0
    let idxs := frame_indices total_frames
    let samples := idxs.filterMap frames
    let fake_count := (samples.filter (fun r => r.is_fake)).length
    let confidences := samples.map (fun r => r.confidence)
    let is_fake : Bool := decide (fake_count ≥ 2)
    let avg_confidence : ℚ :=
      if confidences.isEmpty then 0 else confidences.sum / (confidences.length : ℚ)
    { is_fake := is_fake, confidence := avg_confidence, media_type := "video",
      details := video_details duration total_frames idxs.length fake_count avg_confidence is_fake }

/-- What `analyze_audio` extracts from a successfully decoded waveform:
sample rate, duration, and the mean spectral centroid. -/
structure AudioData where
  sample_rate : ℕ
  duration : ℚ
  mean_centroid : ℚ
  deriving DecidableEq

/-- The `details` text `analyze_audio` assembles on the success path. -/
def audio_details (d : AudioData) : String :=
  let dur := fmt1 d.duration
  let sr := d.sample_rate
  let c := pyInt d.mean_centroid
  String.intercalate "\n"
    [s!"• Durée: {dur}s",
     s!"• Fréquence d'échantillonnage: {sr}Hz",
     s!"• Centroïde spectral: {c}Hz",
     "\n⚠️ Analyse audio limitée",
     "• Pour une analyse approfondie, consultez un expert"]

/-- `DeepfakeDetector.analyze_audio`. `decoded` is the outcome of the
`librosa` decode-and-feature block (everything inside the `try` up to the
verdict); its failure is caught by the method's `except`, which returns
the zero-confidence record with the explanatory detail. On success the
verdict is hard-coded: `is_suspicious = False`, `confidence = 0.3`. -/
def analyze_audio (decoded : Except String AudioData) : MediaRecord :=
  match decoded with
  | .ok d =>
    { is_fake := false, confidence := 0.3, media_type := "audio",
      details := audio_details d }
  | .error e =>
    { is_fake := false, confidence := 0, media_type := "audio",
      details := "Analyse audio non disponible: " ++ e }

/-- The dispatch block inside `DeepfakeDetector.analyze_media`'s `try`:
route on the mapped media type; an unmatched type returns the neutral
unsupported-kind record. `iR` / `vR` / `aR` are the outcomes of
`analyze_image` / `analyze_video` / `analyze_audio` (modelled as possibly
raising so that the surrounding `except` is exercised, even though each of
those methods catches its own failures). -/
def dispatch_media (iR vR aR : Except String MediaRecord) (media_type : String) :
    Except String MediaRecord :=
  if media_type = "image" then iR
  else if media_type = "video" then vR
  else if media_type = "audio" then aR
  else
    .ok { is_fake := false, confidence := 0, media_type := media_type,
          details := "Type de média non supporté: " ++ media_type }

/-- `DeepfakeDetector.analyze_media`: map the MIME type (outside the
`try`; total on strings), dispatch, and convert any raised failure into
the error record. -/
def analyze_media (iR vR aR : Except String MediaRecord) (mime_type : String) : MediaRecord :=
  let media_type := get_media_type_from_mime mime_type
  match dispatch_media iR vR aR media_type with
  | .ok r => r
  | .error e =>
    { is_fake := false, confidence := 0, media_type := media_type,
      details := "Erreur d'analyse: " ++ e }

/-- Concrete classifier capability used by witnesses: always returns an
empty prediction list. -/
def pipe0 : String → Except String (List Prediction) := fun _ => .ok []

/-- Concrete classifier capability used by witnesses: always raises. -/
def pipeAlt : String → Except String (List Prediction) := fun _ => .error "never"

/-- Concrete frame decoder in which every sampled frame fails to decode. -/
def framesNone : ℕ → Option FrameRes := fun _ => none

/-- Concrete frame decoder that succeeds only at index 99 (never sampled
for a 3-frame video), so its successful samples coincide with
`framesNone`'s. -/
def framesAlt : ℕ → Option FrameRes := fun i => if i = 99 then some ⟨true, 1⟩ else none

/-- Frame-level records with fake flags `[true, false, true, false, false]`. -/
def framesTwoFake : ℕ → Option FrameRes :=
  fun i => some ⟨[true, false, true, false, false].getD i false, 1/2⟩

/-- Frame-level records with fake flags `[true, false, false, false, false]`. -/
def framesOneFake : ℕ → Option FrameRes :=
  fun i => some ⟨[true, false, false, false, false].getD i false, 1/2⟩

/-- Concrete media record used by the `analyze_media` witness. -/
def sampleRec : MediaRecord := ⟨false, 0, "image", ""⟩

theorem frame_indices_length (n : ℕ) : (frame_indices n).length = min 5 n := by
  simp [frame_indices]

theorem frame_indices_of_five_le {n : ℕ} (h : 5 ≤ n) :
    frame_indices n =
      [0 * (n - 1) / 4, 1 * (n - 1) / 4, 2 * (n - 1) / 4, 3 * (n - 1) / 4, 4 * (n - 1) / 4] := by
  have hmin : min 5 n = 5 := Nat.min_eq_left h
  simp only [frame_indices, hmin]
  rfl

/-- C5: for every video with total frame count `n ≥ 1`, the sampler
deterministically selects `min 5 n` frame indices, within the inclusive
range `[0, n-1]`, strictly increasing, starting at index 0 and ending at
index `n - 1`; for `n = 12` it selects exactly `[0, 2, 5, 8, 11]`
(5 indices spanning `[0, 11]`) and for `n = 3` it selects all 3 indices
`[0, 1, 2]`. -/
theorem frame_indices_spec :
    (∀ n : ℕ, 1 ≤ n →
      ((frame_indices n).length = min 5 n ∧
       (∀ x ∈ frame_indices n, x ≤ n - 1) ∧
       List.Chain' (· < ·) (frame_indices n) ∧
       (frame_indices n).head? = some 0 ∧
       (frame_indices n).getLast? = some (n - 1))) ∧
    frame_indices 12 = [0, 2, 5, 8, 11] ∧
    frame_indices 3 = [0, 1, 2] := by
  refine ⟨?_, by decide, by decide⟩
  intro n hn
  have hlen := frame_indices_length n
  rcases lt_or_le n 5 with h5 | h5
  · interval_cases n
    · exact ⟨hlen, by decide, by rw [show frame_indices 1 = [0] from rfl]; simp,
        by decide, by decide⟩
    · exact ⟨hlen, by decide,
        by rw [show frame_indices 2 = [0, 1] from rfl]; norm_num [List.chain'_cons],
        by decide, by decide⟩
    · exact ⟨hlen, by decide,
        by rw [show frame_indices 3 = [0, 1, 2] from rfl]; norm_num [List.chain'_cons],
        by decide, by decide⟩
    · exact ⟨hlen, by decide,
        by rw [show frame_indices 4 = [0, 1, 2, 3] from rfl]; norm_num [List.chain'_cons],
        by decide, by decide⟩
  · have h4 : 4 ≤ n - 1 := by omega
    refine ⟨hlen, ?_, ?_, ?_, ?_⟩ <;> rw [frame_indices_of_five_le h5]
    · intro x hx
      simp only [List.mem_cons, List.not_mem_nil, or_false] at hx
      rcases hx with rfl | rfl | rfl | rfl | rfl <;> omega
    · simp only [List.chain'_cons, List.chain'_singleton, and_true]
      omega
    · simp
    · simp only [List.getLast?_cons_cons, List.getLast?_singleton, Option.some.injEq]
      omega

/-- C5 witness: the sampler property instantiated at a concrete 7-frame
video. -/
theorem frame_indices_spec_witness :
    1 ≤ 7 ∧
    ((frame_indices 7).length = min 5 7 ∧
     (∀ x ∈ frame_indices 7, x ≤ 7 - 1) ∧
     List.Chain' (· < ·) (frame_indices 7) ∧
     (frame_indices 7).head? = some 0 ∧
     (frame_indices 7).getLast? = some (7 - 1)) :=
  ⟨by decide, frame_indices_spec.1 7 (by decide)⟩

/-- C4: the aggregate verdict of `analyze_video` is fake iff at least 2
successfully analyzed frames were flagged fake (an absolute count), and
the aggregate confidence is the arithmetic mean of the successfully
analyzed frames' confidences, or 0 when no frame was decoded; fake flags
`[true, false, true, false, false]` aggregate to `is_fake = true` and
`[true, false, false, false, false]` to `is_fake = false`. -/
theorem analyze_video_aggregation :
    (∀ (tf : ℕ) (fps : ℚ) (frames : ℕ → Option FrameRes),
      ((analyze_video true tf fps frames).is_fake = true ↔
        2 ≤ (((frame_indices tf).filterMap frames).filter (fun r => r.is_fake)).length) ∧
      (analyze_video true tf fps frames).confidence =
        (if (frame_indices tf).filterMap frames = [] then 0
         else (((frame_indices tf).filterMap frames).map (fun r => r.confidence)).sum /
              ((((frame_indices tf).filterMap frames).map (fun r => r.confidence)).length : ℚ))) ∧
    (analyze_video true 5 1 framesTwoFake).is_fake = true ∧
    (analyze_video true 5 1 framesOneFake).is_fake = false := by
  refine ⟨?_, by decide, by decide⟩
  intro tf fps frames
  constructor
  · simp [analyze_video, ge_iff_le]
  · rcases h : (frame_indices tf).filterMap frames with _ | ⟨a, l⟩ <;>
      simp [analyze_video, h]

/-- C9: failed frame decodes are skipped silently — the aggregate record
depends only on the successfully decoded samples — and a video in which
every sampled frame fails to decode yields the non-fake, zero-confidence
record whose `details` is the explanatory summary (no exception). -/
theorem analyze_video_skip_failed_frames :
    (∀ (tf : ℕ) (fps : ℚ) (f g : ℕ → Option FrameRes),
      (frame_indices tf).filterMap f = (frame_indices tf).filterMap g →
      analyze_video true tf fps f = analyze_video true tf fps g) ∧
    (∀ (tf : ℕ) (fps : ℚ) (f : ℕ → Option FrameRes),
      (∀ i, f i = none) →
      analyze_video true tf fps f =
        { is_fake := false, confidence := 0, media_type := "video",
          details := video_details (if fps > 0 then (tf : ℚ) / fps else 0) tf
            (min 5 tf) 0 0 false }) := by
  constructor
  · intro tf fps f g h
    simp only [analyze_video, h]
  · intro tf fps f hf
    have h0 : (frame_indices tf).filterMap f = [] := by
      rw [List.filterMap_eq_nil_iff]
      intro a _
      exact hf a
    simp [analyze_video, h0, frame_indices_length]

/-- C9 witness: both halves instantiated at a concrete 3-frame video whose
sampled frames all fail to decode. -/
theorem analyze_video_skip_failed_frames_witness :
    ((frame_indices 3).filterMap framesNone = (frame_indices 3).filterMap framesAlt ∧
     analyze_video true 3 1 framesNone = analyze_video true 3 1 framesAlt) ∧
    ((∀ i, framesNone i = none) ∧
     analyze_video true 3 1 framesNone =
       { is_fake := false, confidence := 0, media_type := "video",
         details := video_details (if (1 : ℚ) > 0 then ((3 : ℕ) : ℚ) / 1 else 0) 3
           (min 5 3) 0 0 false }) :=
  ⟨⟨by decide, analyze_video_skip_failed_frames.1 3 1 framesNone framesAlt (by decide)⟩,
   ⟨fun _ => rfl, analyze_video_skip_failed_frames.2 3 1 framesNone (fun _ => rfl)⟩⟩

/-- C2 counterexample: the claim "every text whose stripped length is
below 10 yields the `insufficient_text` record" is false as stated —
`analyze_text` runs the lazy model load *before* the length check, and
`_lazy_load_model` re-raises its failure, so on an uninitialized detector
whose load fails, even the empty text yields the `error` record. -/
theorem analyze_text_short_text_claim_false :
    (analyze_text false (.error "model load failed") pipe0 "").label ≠ "insufficient_text" ∧
    (analyze_text false (.error "model load failed") pipe0 "") =
      { is_fake := false, confidence := 0, label := "error",
        details := "Erreur d'analyse: " ++ "model load failed" } := by
  constructor
  · decide
  · rfl

/-- C2 (amended): provided the lazy initialization step does not raise
(the detector is already initialized, or the load succeeds), every text
whose whitespace-stripped length is below 10 — including the empty text —
yields `label = "insufficient_text"`, `is_fake = false`,
`confidence = 0`, and the classifier capability is not invoked on the
input: the result is the same fixed record for every capability. -/
theorem analyze_text_short_text_amended :
    ∀ (initialized : Bool) (loadR : Except String Unit)
      (pipe pipe2 : String → Except String (List Prediction)) (text : String),
      (initialized = true ∨ loadR = .ok ()) →
      (pyStrip text).length < 10 →
      analyze_text initialized loadR pipe text =
        { is_fake := false, confidence := 0, label := "insufficient_text",
          details := "Texte trop court pour une analyse fiable" } ∧
      analyze_text initialized loadR pipe text = analyze_text initialized loadR pipe2 text := by
  intro initialized loadR pipe pipe2 text hinit hshort
  have key : ∀ p : String → Except String (List Prediction),
      analyze_text initialized loadR p text =
        { is_fake := false, confidence := 0, label := "insufficient_text",
          details := "Texte trop court pour une analyse fiable" } := by
    intro p
    have hstep : (if initialized then (.ok () : Except String Unit) else loadR) = .ok () := by
      rcases hinit with h | h
      · rw [h]
        rfl
      · rw [h]
        split <;> rfl
    simp only [analyze_text, hstep]
    rw [if_pos (Or.inr hshort)]
  exact ⟨key pipe, (key pipe).trans (key pipe2).symm⟩

/-- C2 witness: the amended statement instantiated on an initialized
detector and a short text. -/
theorem analyze_text_short_text_amended_witness :
    (true = true ∨ (Except.ok () : Except String Unit) = .ok ()) ∧
    (pyStrip "  court  ").length < 10 ∧
    (analyze_text true (.ok ()) pipe0 "  court  " =
      { is_fake := false, confidence := 0, label := "insufficient_text",
        details := "Texte trop court pour une analyse fiable" } ∧
     analyze_text true (.ok ()) pipe0 "  court  " =
       analyze_text true (.ok ()) pipeAlt "  court  ") :=
  ⟨Or.inl rfl, by decide,
   analyze_text_short_text_amended true (.ok ()) pipe0 pipeAlt "  court  "
     (Or.inl rfl) (by decide)⟩

/-- C3: whenever the top prediction's upper-cased label is one of REAL,
LABEL_0, "0", RELIABLE, the parsed record reports `is_fake = false` for
every raw score in `[0, 1]`, and its confidence is exactly that raw score
(confidence in authenticity, not in fakeness). -/
theorem parse_predictions_real_label :
    ∀ (top : Prediction) (rest : List Prediction),
      pyUpper top.label ∈ (["REAL", "LABEL_0", "0", "RELIABLE"] : List String) →
      0 ≤ top.score → top.score ≤ 1 →
      (parse_predictions (top :: rest)).is_fake = false ∧
      (parse_predictions (top :: rest)).confidence = top.score := by
  intro top rest hlab _ _
  simp [parse_predictions, hlab]

/-- C3 witness: a top prediction labelled "real" with raw score 1/2. -/
theorem parse_predictions_real_label_witness :
    (pyUpper (Prediction.mk "real" (1/2)).label ∈
       (["REAL", "LABEL_0", "0", "RELIABLE"] : List String) ∧
     (0 : ℚ) ≤ (Prediction.mk "real" (1/2)).score ∧
     (Prediction.mk "real" (1/2)).score ≤ 1) ∧
    ((parse_predictions [Prediction.mk "real" (1/2)]).is_fake = false ∧
     (parse_predictions [Prediction.mk "real" (1/2)]).confidence =
       (Prediction.mk "real" (1/2)).score) :=
  ⟨⟨by decide, by norm_num, by norm_num⟩,
   parse_predictions_real_label (Prediction.mk "real" (1/2)) []
     (by decide) (by norm_num) (by norm_num)⟩

/-- C6: the heuristic image verdict is exactly the documented formula —
`suspicious_score` is 0 plus 0.2 when the estimated quality is below 70
plus 0.3 when the edge-density ratio exceeds 0.7, `is_fake` iff that
score exceeds 0.3, confidence is `min score 0.6` — and so the heuristic
path's confidence never exceeds 0.6 for any input. -/
theorem analyze_image_basic_verdict :
    ∀ img : ImgData,
      (analyze_image_basic_core img).is_fake =
        decide (((if estimate_jpeg_quality img < 70 then (0.2 : ℚ) else 0) +
          (if analyze_edges img > (0.7 : ℚ) then (0.3 : ℚ) else 0)) > 0.3) ∧
      (analyze_image_basic_core img).confidence =
        min ((if estimate_jpeg_quality img < 70 then (0.2 : ℚ) else 0) +
          (if analyze_edges img > (0.7 : ℚ) then (0.3 : ℚ) else 0)) 0.6 ∧
      (analyze_image_basic_core img).confidence ≤ 0.6 := by
  intro img
  refine ⟨rfl, rfl, ?_⟩
  exact min_le_right _ _

/-- C7: `analyze_audio` never reports fake — its confidence is exactly
0.3 on a successful decode and exactly 0 on a decode failure, and a
decode failure produces the explanatory detail string instead of
propagating. -/
theorem analyze_audio_spec :
    ∀ decoded : Except String AudioData,
      (analyze_audio decoded).is_fake = false ∧
      (analyze_audio decoded).confidence =
        (match decoded with
         | .ok _ => (0.3 : ℚ)
         | .error _ => 0) ∧
      (∀ e, decoded = .error e →
        (analyze_audio decoded).details = "Analyse audio non disponible: " ++ e) := by
  intro decoded
  rcases decoded with msg | d
  · refine ⟨rfl, rfl, ?_⟩
    intro e h
    injection h with h'
    subst h'
    rfl
  · exact ⟨rfl, rfl, fun e h => nomatch h⟩

/-- C7 witness: a concrete decode failure. -/
theorem analyze_audio_spec_witness :
    ((Except.error "decode failed" : Except String AudioData) = .error "decode failed") ∧
    ((analyze_audio (.error "decode failed")).is_fake = false ∧
     (analyze_audio (.error "decode failed")).details =
       "Analyse audio non disponible: " ++ "decode failed") :=
  ⟨rfl,
   (analyze_audio_spec (.error "decode failed")).1,
   (analyze_audio_spec (.error "decode failed")).2.2 "decode failed" rfl⟩

/-- C1: `analyze_media` is total on any file path and declared MIME type —
in this embedding it returns a `MediaRecord` for every input, with both
failure modes characterized: a MIME type that maps to none of
image/video/audio yields the neutral record whose `details` names the
unsupported kind, and a raise inside the dispatched analysis is caught and
converted to the zero-confidence error record (never re-raised). -/
theorem analyze_media_unsupported_neutral :
    ∀ (iR vR aR : Except String MediaRecord) (mime : String),
      (get_media_type_from_mime mime ∉ (["image", "video", "audio"] : List String) →
        analyze_media iR vR aR mime =
          { is_fake := false, confidence := 0,
            media_type := get_media_type_from_mime mime,
            details := "Type de média non supporté: " ++ get_media_type_from_mime mime }) ∧
      (∀ e, dispatch_media iR vR aR (get_media_type_from_mime mime) = .error e →
        analyze_media iR vR aR mime =
          { is_fake := false, confidence := 0,
            media_type := get_media_type_from_mime mime,
            details := "Erreur d'analyse: " ++ e }) := by
  intro iR vR aR mime
  constructor
  · intro h
    simp only [List.mem_cons, List.not_mem_nil, or_false, not_or] at h
    obtain ⟨h1, h2, h3⟩ := h
    simp only [analyze_media, dispatch_media, if_neg h1, if_neg h2, if_neg h3]
  · intro e he
    simp only [analyze_media, he]

/-- C1 witness: a PDF MIME type (mapped kind "document") hits the neutral
branch, and a raising image analysis on an image MIME type is converted to
the error record. -/
theorem analyze_media_unsupported_neutral_witness :
    (get_media_type_from_mime "application/pdf" ∉ (["image", "video", "audio"] : List String) ∧
     analyze_media (.ok sampleRec) (.ok sampleRec) (.ok sampleRec) "application/pdf" =
       { is_fake := false, confidence := 0,
         media_type := get_media_type_from_mime "application/pdf",
         details := "Type de média non supporté: " ++ get_media_type_from_mime "application/pdf" }) ∧
    (dispatch_media (.error "boom") (.ok sampleRec) (.ok sampleRec)
        (get_media_type_from_mime "image/png") = .error "boom" ∧
     analyze_media (.error "boom") (.ok sampleRec) (.ok sampleRec) "image/png" =
       { is_fake := false, confidence := 0,
         media_type := get_media_type_from_mime "image/png",
         details := "Erreur d'analyse: " ++ "boom" }) :=
  ⟨⟨by decide,
    (analyze_media_unsupported_neutral (.ok sampleRec) (.ok sampleRec) (.ok sampleRec)
      "application/pdf").1 (by decide)⟩,
   ⟨rfl,
    (analyze_media_unsupported_neutral (.error "boom") (.ok sampleRec) (.ok sampleRec)
      "image/png").2 "boom" rfl⟩⟩

/-- C8 counterexample: the claim "after initialization fails once, no
subsequent analyze_text call re-attempts initialization" is false —
`_lazy_load_model` re-raises without setting `_initialized`, so after a
first call whose load fails, the very next call attempts the load again. -/
theorem analyze_text_step_no_retry_claim_false :
    (analyze_text_step ⟨false⟩ (.error "load failed") pipe0 "abcdefghijkl").attempted = true ∧
    (analyze_text_step
        ((analyze_text_step ⟨false⟩ (.error "load failed") pipe0 "abcdefghijkl").state)
        (.error "load failed") pipe0 "abcdefghijkl").attempted = true :=
  ⟨rfl, rfl⟩

/-- C8 (amended): initialization is re-attempted on every `analyze_text`
call for as long as the detector is uninitialized — a failed load leaves
the state unchanged (so the next call retries), while a successful load
sets `_initialized`, after which no call attempts the load again. -/
theorem analyze_text_step_retry :
    ∀ (s : DetectorState) (loadR : Except String Unit)
      (pipe : String → Except String (List Prediction)) (text : String),
      ((analyze_text_step s loadR pipe text).attempted = !s.initialized) ∧
      (∀ e, loadR = .error e → (analyze_text_step s loadR pipe text).state = s) ∧
      (s.initialized = false → loadR = .ok () →
        (analyze_text_step s loadR pipe text).state.initialized = true) := by
  intro s loadR pipe text
  rcases s with ⟨init⟩
  cases init
  · rcases loadR with e | u
    · exact ⟨rfl, fun _ _ => rfl, fun _ h => Except.noConfusion h⟩
    · exact ⟨rfl, fun _ h => Except.noConfusion h, fun _ _ => rfl⟩
  · exact ⟨rfl, fun _ _ => rfl, fun h _ => Bool.noConfusion h⟩

/-- C8 witness: both load outcomes instantiated concretely. -/
theorem analyze_text_step_retry_witness :
    ((Except.error "x" : Except String Unit) = .error "x" ∧
     (analyze_text_step ⟨true⟩ (.error "x") pipe0 "t").state = ⟨true⟩) ∧
    ((⟨false⟩ : DetectorState).initialized = false ∧
     (Except.ok () : Except String Unit) = .ok () ∧
     (analyze_text_step ⟨false⟩ (.ok ()) pipe0 "t").state.initialized = true) :=
  ⟨⟨rfl, (analyze_text_step_retry ⟨true⟩ (.error "x") pipe0 "t").2.1 "x" rfl⟩,
   ⟨rfl, rfl, (analyze_text_step_retry ⟨false⟩ (.ok ()) pipe0 "t").2.2 rfl rfl⟩⟩

/-- C10: for every analysis record with `is_fake = false` — which includes
the `insufficient_text` and `error` records `analyze_text` itself builds —
`get_analysis_summary` raises `UnboundLocalError` for the local `summary`
(the not-fake branch augments a variable that was never assigned), and
the exception escapes to its caller; only `is_fake = true` records produce
a summary string. -/
theorem get_analysis_summary_unbound_local :
    ∀ analysis : TextRecord,
      (analysis.is_fake = false →
        get_analysis_summary analysis = .error (PyError.unboundLocal "summary")) ∧
      (analysis.is_fake = true → ∃ s, get_analysis_summary analysis = .ok s) := by
  intro analysis
  constructor
  · intro h
    simp [get_analysis_summary, h]
  · intro h
    simp [get_analysis_summary, h]

/-- C10 witness: the `insufficient_text` record produced by `analyze_text`
on empty input triggers the unbound-local error, while a fake-flagged
record produces a summary. -/
theorem get_analysis_summary_unbound_local_witness :
    ((analyze_text true (.ok ()) pipe0 "").is_fake = false ∧
     get_analysis_summary (analyze_text true (.ok ()) pipe0 "") =
       .error (PyError.unboundLocal "summary")) ∧
    (({ is_fake := true, confidence := 1/2, label := "FAKE", details := "" } : TextRecord).is_fake
        = true ∧
     ∃ s, get_analysis_summary
       ({ is_fake := true, confidence := 1/2, label := "FAKE", details := "" } : TextRecord) =
         .ok s) :=
  ⟨⟨rfl, (get_analysis_summary_unbound_local _).1 rfl⟩,
   ⟨rfl, (get_analysis_summary_unbound_local _).2 rfl⟩⟩
